import Mathlib

/-!
A verification development for the AiTraderGlobal trading backend.

The Python sources are shallowly embedded in Lean:
Python floats become rationals, Python dictionaries become structures,
raised exceptions become values of an error type carrying the exception
class name, and the external world (Firebase persistence, exchange HTTP
APIs) is passed in explicitly as data or oracles.  Every definition
mirrors a concrete function of the repository; the file and line
references are given in the doc comments.
-/

/-! ## Python primitives -/

/-- Membership test of one character list at the head of another,
mirroring Python substring search one position at a time. -/
def isPre : List Char → List Char → Bool
  | [], _ => true
  | _ :: _, [] => false
  | p :: ps, s :: ss => p == s && isPre ps ss

/-- Helper for the Python `needle in haystack` test on strings. -/
def listHasSub (p : List Char) : List Char → Bool
  | [] => isPre p []
  | s :: ss => isPre p (s :: ss) || listHasSub p ss

/-- Python `pat in s` for strings. -/
def containsSub (s pat : String) : Bool := listHasSub pat.data s.data

/-- ASCII lower-casing of one character, as Python `str.lower` acts on the
ASCII-only strings appearing in this codebase. -/
def lowerChar (c : Char) : Char :=
  if 65 ≤ c.toNat ∧ c.toNat ≤ 90 then Char.ofNat (c.toNat + 32) else c

/-- ASCII upper-casing of one character, as Python `str.upper` acts on the
ASCII-only strings appearing in this codebase. -/
def upperChar (c : Char) : Char :=
  if 97 ≤ c.toNat ∧ c.toNat ≤ 122 then Char.ofNat (c.toNat - 32) else c

/-- Python `s.lower()`. -/
def lowerStr (s : String) : String := ⟨s.data.map lowerChar⟩

/-- Python `s.upper()`. -/
def upperStr (s : String) : String := ⟨s.data.map upperChar⟩

/-- Floor of a rational, computable through integer floor division. -/
def ratFloor (q : ℚ) : ℤ := q.num.fdiv q.den

/-- Python `a % b` on floats (sign follows the divisor; both arguments are
positive wherever the sources use it). -/
def pythonMod (a b : ℚ) : ℚ := a - b * (ratFloor (a / b) : ℤ)

/-- Round-half-to-even on rationals, the rounding mode of Python `round`. -/
def roundHalfEven (q : ℚ) : ℤ :=
  let f := ratFloor q
  let r := q - (f : ℚ)
  if r < 1/2 then f
  else if 1/2 < r then f + 1
  else if f % 2 = 0 then f else f + 1

/-- Python `round(x, p)` for nonnegative `p` decimal places. -/
def pythonRound (x : ℚ) (p : Nat) : ℚ :=
  (roundHalfEven (x * 10 ^ p) : ℚ) / 10 ^ p

/-! ## EMA computation

`EMAMonitorFirebase.calculate_ema`
(backend/services/ema_monitor_firebase.py, lines 204-224): once the
candle closes have been fetched, the EMA is seeded with the first close
and folded over the remaining closes in input order.  An empty list
reaches `closes[0]`, whose IndexError is swallowed by the surrounding
`except` clause, which returns None. -/

/-- The EMA computation of `calculate_ema` on an already-fetched list of
closes (chronological, oldest first). -/
def calculate_ema (closes : List ℚ) (period : Nat) : Option ℚ :=
  if closes.length < period then none
  else
    match closes with
    | [] => none
    | c0 :: rest =>
        some (rest.foldl (fun ema close => (close - ema) * (2 / ((period : ℚ) + 1)) + ema) c0)

/-- Modelled from the spec: the multiplier of the EMA recurrence. -/
def spec_ema_mult (period : Nat) : ℚ := 2 / ((period : ℚ) + 1)

/-- Modelled from the spec: the EMA recurrence applied in input order. -/
def spec_ema_go (mult : ℚ) : ℚ → List ℚ → ℚ
  | ema, [] => ema
  | ema, close :: rest => spec_ema_go mult ((close - ema) * mult + ema) rest

/-- Modelled from the spec: seed with the first close of the
chronological series, then apply the recurrence to the rest. -/
def spec_ema (closes : List ℚ) (period : Nat) : ℚ :=
  match closes with
  | [] => 0
  | seed :: rest => spec_ema_go (spec_ema_mult period) seed rest

/-! ## Crossover detection

`EMAMonitorFirebase.check_ema_signal`
(backend/services/ema_monitor_firebase.py, lines 334-352).  The guard is
Python truthiness on the previous values: `if previous_ema9 and
previous_ema21`, which is False when a previous value is None or when it
equals 0.0. -/

/-- Python truthiness of an optional float. -/
def truthyQ : Option ℚ → Bool
  | none => false
  | some x => if x = 0 then false else true

/-- The crossover decision of `check_ema_signal`. -/
def detect_crossover (previous_ema9 previous_ema21 : Option ℚ)
    (ema9 ema21 : ℚ) : Option String :=
  if truthyQ previous_ema9 && truthyQ previous_ema21 then
    let p9 := previous_ema9.getD 0
    let p21 := previous_ema21.getD 0
    if p9 < p21 ∧ ema9 > ema21 then some "BULLISH"
    else if p9 > p21 ∧ ema9 < ema21 then some "BEARISH"
    else none
  else none

/-! ## Error model

backend/services/unified_exchange.py defines the exception hierarchy:
ExchangeError (base), RateLimitError, AuthenticationError,
InsufficientBalanceError.  A raised Python exception is modelled as a
value carrying its class name, the stored exchange attribute and the
message; str(e) of an ExchangeError is the uppercased bracketed exchange
followed by the message (ExchangeError.__init__). -/

structure PyErr where
  className : String
  exchange : String
  message : String
deriving DecidableEq, Repr

/-- The classes of the ExchangeError hierarchy defined in
unified_exchange.py. -/
def exchangeErrorClasses : List String :=
  ["ExchangeError", "RateLimitError", "AuthenticationError", "InsufficientBalanceError"]

/-- Python str(e): ExchangeError instances render as
[EXCHANGE] message (super().__init__ at unified_exchange.py line 33),
plain exceptions render as their message. -/
def errStr (e : PyErr) : String :=
  if exchangeErrorClasses.contains e.className then
    "[" ++ upperStr e.exchange ++ "] " ++ e.message
  else e.message

/-- ExchangeError.__init__: a string exchange argument is lowercased;
any non-string argument is replaced by UNKNOWN. -/
def mkExchangeError (cls exchange message : String) : PyErr :=
  ⟨cls, lowerStr exchange, message⟩

/-! ## Retry with exponential backoff

retry_with_backoff (backend/services/unified_exchange.py, lines
51-110).  The decorated coroutine is modelled as a map from the attempt
index to that attempt's outcome.  The loop runs for attempt in
range(max_retries + 1); on an error whose lowercased str matches an
authentication pattern it raises AuthenticationError at once; while
attempt < max_retries it sleeps min(delay, max_delay) and doubles the
delay; on the final attempt it raises RateLimitError or ExchangeError.
The wrapper passes args[0] to the error constructors, which at the three
decorated gateway methods is the service object, not a string, so
ExchangeError.__init__ stores the exchange as UNKNOWN. -/

def authPatterns : List String := ["invalid", "unauthorized", "forbidden", "api key"]

def rateLimitPatterns : List String := ["429", "rate limit", "too many requests"]

/-- Python any(x in msg for x in pats). -/
def matchesAny (msg : String) (pats : List String) : Bool :=
  pats.any (fun p => containsSub msg p)

/-- Outcome of a retried call: the final result or exception, the backoff
sleeps performed, and how many times the wrapped function was called. -/
structure RetryOut (α : Type) where
  result : Except PyErr α
  sleeps : List ℚ
  calls : Nat

/-- The retry loop; remaining is max_retries minus the current attempt
index, so remaining = 0 exactly on the final attempt. -/
def retry_go {α : Type} (f : Nat → Except PyErr α) (maxRetries : Nat)
    (expBase maxDelay : ℚ) :
    Nat → Nat → ℚ → List ℚ → RetryOut α
  | 0, attempt, _delay, sleeps =>
    match f attempt with
    | .ok v => ⟨.ok v, sleeps, attempt + 1⟩
    | .error e =>
      if matchesAny (lowerStr (errStr e)) authPatterns then
        ⟨.error ⟨"AuthenticationError", "UNKNOWN", "Authentication failed: " ++ errStr e⟩,
          sleeps, attempt + 1⟩
      else if matchesAny (lowerStr (errStr e)) rateLimitPatterns then
        ⟨.error ⟨"RateLimitError", "UNKNOWN",
            "Rate limit exceeded after " ++ toString maxRetries ++ " retries"⟩,
          sleeps, attempt + 1⟩
      else
        ⟨.error ⟨"ExchangeError", "UNKNOWN",
            "Operation failed after " ++ toString maxRetries ++ " retries: " ++ errStr e⟩,
          sleeps, attempt + 1⟩
  | r + 1, attempt, delay, sleeps =>
    match f attempt with
    | .ok v => ⟨.ok v, sleeps, attempt + 1⟩
    | .error e =>
      if matchesAny (lowerStr (errStr e)) authPatterns then
        ⟨.error ⟨"AuthenticationError", "UNKNOWN", "Authentication failed: " ++ errStr e⟩,
          sleeps, attempt + 1⟩
      else
        retry_go f maxRetries expBase maxDelay r (attempt + 1) (delay * expBase)
          (sleeps ++ [min delay maxDelay])

/-- The decorator with its defaults initial_delay=1.0,
exponential_base=2.0, max_delay=60.0. -/
def retry_with_backoff {α : Type} (maxRetries : Nat) (initialDelay expBase maxDelay : ℚ)
    (f : Nat → Except PyErr α) : RetryOut α :=
  retry_go f maxRetries expBase maxDelay maxRetries 0 initialDelay []

/-! ## Unified exchange gateway

UnifiedExchangeService (backend/services/unified_exchange.py).  Each
method lowercases the exchange name, dispatches on it to the per-venue
service module, normalizes the response, wraps non-ExchangeError
exceptions into ExchangeError, and raises ExchangeError for an unknown
venue; the whole method is wrapped by retry_with_backoff.  The adapter
modules are passed in as oracles indexed by the retry attempt.  The
100ms rate limiter spacing and the 120s balance cache are wall-clock
behaviors of the service left outside this embedding; timestamp fields
of the normalized responses are dropped for the same reason. -/

def supportedExchanges : List String := ["binance", "bybit", "okx", "kucoin", "mexc"]

/-- A per-venue get_balance result, already in the shape the adapters
return: total, available, currency. -/
structure BalanceRes where
  total : ℚ
  available : ℚ
  currency : String
deriving DecidableEq, Repr

/-- The normalized balance response of UnifiedExchangeService.get_balance. -/
structure NormalizedBalance where
  exchange : String
  accountType : String
  currency : String
  total : ℚ
  available : ℚ
  locked : ℚ
deriving DecidableEq, Repr

/-- The normalization block of get_balance (unified_exchange.py lines
208-217). -/
def normalize_balance (exchangeName : String) (isFutures : Bool)
    (r : BalanceRes) : NormalizedBalance :=
  ⟨exchangeName, if isFutures then "futures" else "spot", r.currency,
    r.total, r.available, r.total - r.available⟩

/-- One attempt of UnifiedExchangeService.get_balance: dispatch by
exchange name, normalize, wrap foreign errors, reject unknown venues. -/
def get_balance_attempt (exchange : String) (isFutures : Bool)
    (adapter : String → Nat → Except PyErr BalanceRes) (attempt : Nat) :
    Except PyErr NormalizedBalance :=
  let exchangeName := lowerStr exchange
  if supportedExchanges.contains exchangeName then
    match adapter exchangeName attempt with
    | .ok r => .ok (normalize_balance exchangeName isFutures r)
    | .error e =>
      if exchangeErrorClasses.contains e.className then .error e
      else .error (mkExchangeError "ExchangeError" exchangeName
          ("Failed to fetch balance: " ++ errStr e))
  else
    .error (mkExchangeError "ExchangeError" exchangeName
        ("Unsupported exchange: " ++ exchangeName))

/-- UnifiedExchangeService.get_balance with its
@retry_with_backoff(max_retries=3) decoration. -/
def unified_get_balance (exchange : String) (isFutures : Bool)
    (adapter : String → Nat → Except PyErr BalanceRes) : RetryOut NormalizedBalance :=
  retry_with_backoff 3 1 2 60 (get_balance_attempt exchange isFutures adapter)

/-- The normalized price response of
UnifiedExchangeService.get_current_price. -/
structure PriceRes where
  exchange : String
  symbol : String
  price : ℚ
deriving DecidableEq, Repr

/-- One attempt of UnifiedExchangeService.get_current_price. -/
def get_current_price_attempt (exchange symbol : String)
    (adapter : String → Nat → Except PyErr ℚ) (attempt : Nat) :
    Except PyErr PriceRes :=
  let exchangeName := lowerStr exchange
  if supportedExchanges.contains exchangeName then
    match adapter exchangeName attempt with
    | .ok p => .ok ⟨exchangeName, symbol, p⟩
    | .error e =>
      if exchangeErrorClasses.contains e.className then .error e
      else .error (mkExchangeError "ExchangeError" exchangeName
          ("Failed to fetch price for " ++ symbol ++ ": " ++ errStr e))
  else
    .error (mkExchangeError "ExchangeError" exchangeName
        ("Unsupported exchange: " ++ exchangeName))

/-- UnifiedExchangeService.get_current_price with its
@retry_with_backoff(max_retries=3) decoration. -/
def unified_get_current_price (exchange symbol : String)
    (adapter : String → Nat → Except PyErr ℚ) : RetryOut PriceRes :=
  retry_with_backoff 3 1 2 60 (get_current_price_attempt exchange symbol adapter)

/-- A position entry as the adapters return it. -/
structure PositionRes where
  symbol : String
  side : String
  amount : ℚ
  entry_price : ℚ
  current_price : ℚ
  unrealized_pnl : ℚ
  leverage : ℤ
deriving DecidableEq, Repr

/-- One attempt of UnifiedExchangeService.get_positions; the
normalization loop re-reads the fields modelled here unchanged and adds
the exchange name and a timestamp. -/
def get_positions_attempt (exchange : String)
    (adapter : String → Nat → Except PyErr (List PositionRes)) (attempt : Nat) :
    Except PyErr (List PositionRes) :=
  let exchangeName := lowerStr exchange
  if supportedExchanges.contains exchangeName then
    match adapter exchangeName attempt with
    | .ok ps => .ok ps
    | .error e =>
      if exchangeErrorClasses.contains e.className then .error e
      else .error (mkExchangeError "ExchangeError" exchangeName
          ("Failed to fetch positions: " ++ errStr e))
  else
    .error (mkExchangeError "ExchangeError" exchangeName
        ("Unsupported exchange: " ++ exchangeName))

/-- UnifiedExchangeService.get_positions with its
@retry_with_backoff(max_retries=2) decoration. -/
def unified_get_positions (exchange : String)
    (adapter : String → Nat → Except PyErr (List PositionRes)) :
    RetryOut (List PositionRes) :=
  retry_with_backoff 2 1 2 60 (get_positions_attempt exchange adapter)

/-! ## Trade manager

TradeManager (backend/services/trade_manager.py).  Firebase is modelled
as a list of stored trades plus an initialization flag; the query and
save exceptions that the code catches are modelled by the booleans
queryOk and saveOk; created_at and updated_at timestamps are wall-clock
data left unmodelled. -/

/-- The trade dictionary assembled by TradeManager.create_order
(trade_manager.py lines 370-388; the raw exchange_response entry is not
modelled). -/
structure TradeData where
  client_order_id : String
  exchange_order_id : String
  exchange : String
  symbol : String
  side : String
  amount : ℚ
  leverage : ℤ
  is_futures : Bool
  entry_price : ℚ
  tp_price : Option ℚ
  sl_price : Option ℚ
  tp_percentage : ℚ
  sl_percentage : ℚ
  tp_order_id : Option String
  sl_order_id : Option String
  status : String
deriving DecidableEq, Repr

/-- A trade record persisted under trades/user_id/trade_id. -/
structure StoredTrade where
  user_id : String
  trade_id : String
  data : TradeData
deriving DecidableEq, Repr

/-- The persistence layer seen by TradeManager. -/
structure FirebaseDB where
  initialized : Bool
  trades : List StoredTrade
deriving DecidableEq, Repr

/-- TradeManager.get_trade_by_client_order_id (trade_manager.py lines
63-107): None when Firebase is uninitialized, None when the query raises
(the except clause at lines 105-107), else the first stored trade of the
user carrying this client_order_id. -/
def get_trade_by_client_order_id (db : FirebaseDB) (queryOk : Bool)
    (user_id client_order_id : String) : Option StoredTrade :=
  if !db.initialized then none
  else if !queryOk then none
  else db.trades.find? (fun st =>
    st.user_id == user_id && st.data.client_order_id == client_order_id)

/-- side.upper() in [BUY, LONG] (trade_manager.py lines 282 and 290). -/
def sideIsLong (side : String) : Bool := ["BUY", "LONG"].contains (upperStr side)

/-- The take-profit price block of TradeManager.create_order
(trade_manager.py lines 281-287). -/
def compute_tp_price (side : String) (entry_price tp_percentage : ℚ) : Option ℚ :=
  if 0 < tp_percentage then
    some (if sideIsLong side then entry_price * (1 + tp_percentage / 100)
      else entry_price * (1 - tp_percentage / 100))
  else none

/-- The stop-loss price block of TradeManager.create_order
(trade_manager.py lines 289-295). -/
def compute_sl_price (side : String) (entry_price sl_percentage : ℚ) : Option ℚ :=
  if 0 < sl_percentage then
    some (if sideIsLong side then entry_price * (1 - sl_percentage / 100)
      else entry_price * (1 + sl_percentage / 100))
  else none

/-- The per-venue create_order response after the order-id extraction of
trade_manager.py lines 356-363. -/
structure AdapterOrderRes where
  orderId : String
  tp_order_id : Option String
  sl_order_id : Option String
deriving DecidableEq, Repr

/-- The dictionary returned by TradeManager.create_order: the trade
fields, the trade id, and the idempotent flag. -/
structure CreateOrderRes where
  trade_id : String
  data : TradeData
  idempotent : Bool
deriving DecidableEq, Repr

/-- The full effect of one TradeManager.create_order call: its returned
value or exception, the persistence state afterwards, the number of
gateway price calls and of adapter order placements. -/
structure CreateOut where
  result : Except PyErr CreateOrderRes
  db : FirebaseDB
  price_fetch_calls : Nat
  orders_placed : Nat

/-- Steps 2-8 of TradeManager.create_order (trade_manager.py lines
256-423), entered when the idempotency lookup found nothing: fetch the
price through the gateway (an ExchangeError there propagates), compute
TP/SL, dispatch to the venue service (unknown venue raises ExchangeError;
a failing venue call is wrapped into ExchangeError), persist when
Firebase is up and the save does not raise, and return the trade with
idempotent=false. -/
def create_order_fresh (db : FirebaseDB) (saveOk : Bool)
    (user_id exchange_name symbol side : String)
    (amount : ℚ) (leverage : ℤ) (is_futures : Bool)
    (tp_percentage sl_percentage : ℚ) (client_order_id : String)
    (priceAdapter : String → Nat → Except PyErr ℚ)
    (adapterRes : Except PyErr AdapterOrderRes)
    (new_trade_id : String) : CreateOut :=
  let priceOut := unified_get_current_price exchange_name symbol priceAdapter
  match priceOut.result with
  | .error e => ⟨.error e, db, priceOut.calls, 0⟩
  | .ok priceData =>
    let entry_price := priceData.price
    let tp_price := compute_tp_price side entry_price tp_percentage
    let sl_price := compute_sl_price side entry_price sl_percentage
    if supportedExchanges.contains exchange_name then
      match adapterRes with
      | .error e =>
        ⟨.error (if exchangeErrorClasses.contains e.className then e
            else mkExchangeError "ExchangeError" exchange_name
              ("Failed to create order: " ++ errStr e)),
          db, priceOut.calls, 1⟩
      | .ok r =>
        let d : TradeData := ⟨client_order_id, r.orderId, exchange_name, symbol,
          upperStr side, amount, leverage, is_futures, entry_price, tp_price, sl_price,
          tp_percentage, sl_percentage, r.tp_order_id, r.sl_order_id, "open"⟩
        let db2 := if db.initialized && saveOk then
            { db with trades := db.trades ++ [⟨user_id, new_trade_id, d⟩] }
          else db
        ⟨.ok ⟨new_trade_id, d, false⟩, db2, priceOut.calls, 1⟩
    else
      ⟨.error (mkExchangeError "ExchangeError" exchange_name
          ("Unsupported exchange: " ++ exchange_name)), db, priceOut.calls, 0⟩

/-- TradeManager.create_order (trade_manager.py lines 183-446): the
idempotency check first; a found trade is returned unchanged with
idempotent=true, touching neither the gateway nor any venue service. -/
def create_order (db : FirebaseDB) (queryOk saveOk : Bool)
    (user_id exchange symbol side : String)
    (amount : ℚ) (leverage : ℤ) (is_futures : Bool)
    (tp_percentage sl_percentage : ℚ) (client_order_id : String)
    (priceAdapter : String → Nat → Except PyErr ℚ)
    (adapterRes : Except PyErr AdapterOrderRes)
    (new_trade_id : String) : CreateOut :=
  match get_trade_by_client_order_id db queryOk user_id client_order_id with
  | some st => ⟨.ok ⟨st.trade_id, st.data, true⟩, db, 0, 0⟩
  | none =>
    create_order_fresh db saveOk user_id (lowerStr exchange) symbol side amount
      leverage is_futures tp_percentage sl_percentage client_order_id
      priceAdapter adapterRes new_trade_id

/-! ## Binance order quantity rounding

BinanceService (backend/services/binance_service.py). -/

/-- The LOT_SIZE fields of get_symbol_info used by create_order. -/
structure SymbolInfo where
  stepSize : ℚ
  minQty : ℚ
deriving DecidableEq, Repr

/-- The while loop of _round_quantity counting decimal digits of the
step size: while temp_step < 1: temp_step *= 10; precision += 1.  The
fuel bound 400 exceeds the 308 iterations possible for any positive
IEEE-754 double, so it never binds on inputs the source can see. -/
def step_precision : Nat → ℚ → Nat
  | 0, _ => 0
  | fuel + 1, t => if t < 1 then step_precision fuel (t * 10) + 1 else 0

/-- BinanceService._round_quantity (binance_service.py lines 145-156):
round(quantity - (quantity % step_size), precision), with Python round
being half-to-even, and round(quantity, 8) when the step size is 0. -/
def round_quantity (quantity step_size : ℚ) : ℚ :=
  if step_size = 0 then pythonRound quantity 8
  else pythonRound (quantity - pythonMod quantity step_size) (step_precision 400 step_size)

/-- Steps 3-5 of BinanceService.create_order (binance_service.py lines
186-199): convert the quote amount to a base quantity at the current
price, round it to the step size, and reject it below the venue minimum
by raising a plain Exception (the message, which interpolates the
computed quantity, the minimum and a suggested amount, is abbreviated
here); otherwise the market order is submitted with that quantity. -/
def binance_order_quantity (amount current_price : ℚ) (info : SymbolInfo) :
    Except PyErr ℚ :=
  if round_quantity (amount / current_price) info.stepSize < info.minQty then
    .error ⟨"Exception", "",
      "Order quantity is below minimum. Increase order amount"⟩
  else .ok (round_quantity (amount / current_price) info.stepSize)

/-! ## EMA monitor: signal record and auto-trade

EMAMonitorFirebase (backend/services/ema_monitor_firebase.py).
check_ema_signal computes both EMAs, loads the previous pair, stores the
new pair in the EMA cache, detects the crossover, fetches the price and
returns the signal dictionary; it writes nothing to the ema_signals
history.  execute_auto_trade resolves API keys, derives the side from
the signal, skips when an open trade for the same
(exchange, symbol, is_futures) exists, calls
trade_manager.create_order, and only then pushes one record (flagged
action_taken=true with the trade id) to ema_signals/user_id. -/

/-- A record pushed to the ema_signals history
(ema_monitor_firebase.py lines 507-515; the copied signal_data fields
other than the symbol are not repeated here, and created_at is
wall-clock data). -/
structure SignalRec where
  symbol : String
  trade_type : String
  action_taken : Bool
  trade_id : Option String
  side : String
deriving DecidableEq, Repr

/-- The signal dictionary built by check_ema_signal
(ema_monitor_firebase.py lines 366-377; the timestamp is wall-clock
data). -/
structure SignalData where
  symbol : String
  interval : String
  exchange : String
  ema9 : ℚ
  ema21 : ℚ
  signal : Option String
  price : ℚ
  previous_ema9 : Option ℚ
  previous_ema21 : Option ℚ
deriving DecidableEq, Repr

/-- The effect of one check_ema_signal call: the returned dictionary (or
None), the EMA cache writes (period, value), and the records appended to
the ema_signals history - always none in this function. -/
structure CheckSignalOut where
  result : Option SignalData
  ema_cache_writes : List (Nat × ℚ)
  signal_appends : List SignalRec
deriving DecidableEq, Repr

/-- EMAMonitorFirebase.check_ema_signal (ema_monitor_firebase.py lines
296-383) with its dependencies passed in: the two calculate_ema
results, the two cached previous EMAs, and the gateway price outcome.
An exception anywhere (modelled: the price fetch) is swallowed and
returns None; the EMA cache writes at lines 331-332 precede the price
fetch.  No ema_signals append occurs anywhere in this function. -/
def check_ema_signal (symbol interval exchange : String)
    (ema9 ema21 : Option ℚ) (previous_ema9 previous_ema21 : Option ℚ)
    (price_result : Except PyErr PriceRes) : CheckSignalOut :=
  match ema9, ema21 with
  | some e9, some e21 =>
    match price_result with
    | .error _ => ⟨none, [(9, e9), (21, e21)], []⟩
    | .ok pd =>
      ⟨some ⟨symbol, interval, exchange, pythonRound e9 2, pythonRound e21 2,
        detect_crossover previous_ema9 previous_ema21 e9 e21,
        pythonRound pd.price 2,
        (if truthyQ previous_ema9 then some (pythonRound (previous_ema9.getD 0) 2)
          else none),
        (if truthyQ previous_ema21 then some (pythonRound (previous_ema21.getD 0) 2)
          else none)⟩,
        [(9, e9), (21, e21)], []⟩
  | _, _ => ⟨none, [], []⟩

/-- The open-position pre-check of execute_auto_trade
(ema_monitor_firebase.py lines 457-469) over the open trades returned by
get_user_trades(status=open). -/
def has_open_trade (open_trades : List TradeData) (exchange symbol : String)
    (is_futures : Bool) : Bool :=
  open_trades.any (fun t =>
    t.symbol == symbol && t.exchange == exchange && t.is_futures == is_futures)

/-- The effect of one execute_auto_trade call: its boolean return, how
many times trade_manager.create_order was invoked, and the records
appended to the ema_signals history. -/
structure AutoTradeOut where
  executed : Bool
  create_order_calls : Nat
  signal_appends : List SignalRec
deriving DecidableEq, Repr

/-- EMAMonitorFirebase.execute_auto_trade (ema_monitor_firebase.py lines
385-521) with its dependencies passed in; the per-type settings
(amount, tp, sl, leverage) only feed the create_order call, which is the
order_result oracle here.  False without a signal or without API keys; a
matching open trade skips the order entirely; a create_order exception
is swallowed into False; on success one history record is pushed when
Firebase is initialized, flagged action_taken=true with the trade id. -/
def execute_auto_trade (signal : Option String) (exchange symbol : String)
    (api_keys_present : Bool) (open_trades : List TradeData)
    (order_result : Except PyErr CreateOrderRes)
    (firebase_up : Bool) (trade_type : String) : AutoTradeOut :=
  match signal with
  | none => ⟨false, 0, []⟩
  | some sig =>
    if !api_keys_present then ⟨false, 0, []⟩
    else
      let is_futures := !(trade_type == "spot")
      let side := if sig == "BULLISH" then "BUY" else "SELL"
      if has_open_trade open_trades exchange symbol is_futures then ⟨false, 0, []⟩
      else
        match order_result with
        | .error _ => ⟨false, 1, []⟩
        | .ok res =>
          ⟨true, 1,
            if firebase_up then [⟨symbol, trade_type, true, some res.trade_id, side⟩]
            else []⟩

/-- The ema_signals appends of one monitor_symbol tick
(ema_monitor_firebase.py lines 580-601): check_ema_signal appends
nothing; execute_auto_trade runs per enabled trade type only when the
returned signal dictionary is truthy and carries a truthy signal. -/
def monitor_tick_signal_appends (check_out : CheckSignalOut)
    (spot_enabled futures_enabled in_spot_watchlist in_futures_watchlist : Bool)
    (api_keys_present : Bool) (open_trades_spot open_trades_fut : List TradeData)
    (order_spot order_fut : Except PyErr CreateOrderRes)
    (firebase_up : Bool) : List SignalRec :=
  check_out.signal_appends ++
    match check_out.result with
    | none => []
    | some sd =>
      match sd.signal with
      | none => []
      | some _ =>
        (if spot_enabled && in_spot_watchlist then
            (execute_auto_trade sd.signal sd.exchange sd.symbol api_keys_present
              open_trades_spot order_spot firebase_up "spot").signal_appends
          else []) ++
        (if futures_enabled && in_futures_watchlist then
            (execute_auto_trade sd.signal sd.exchange sd.symbol api_keys_present
              open_trades_fut order_fut firebase_up "futures").signal_appends
          else [])

/-! ## Theorems -/

theorem foldl_eq_spec_ema_go (mult : ℚ) (l : List ℚ) (e : ℚ) :
    l.foldl (fun ema close => (close - ema) * mult + ema) e = spec_ema_go mult e l := by
  induction l generalizing e with
  | nil => rfl
  | cons c cs ih => simp [List.foldl, spec_ema_go, ih]

/-- C2: for every non-empty chronological list of closes with at least
period elements, calculate_ema returns the value of the recurrence
seeded with the first close, with multiplier 2/(period+1), applied in
input order. -/
theorem C2_calculate_ema_recurrence (closes : List ℚ) (period : Nat)
    (hne : closes ≠ []) (hlen : period ≤ closes.length) :
    calculate_ema closes period = some (spec_ema closes period) := by
  match closes with
  | [] => exact absurd rfl hne
  | c0 :: rest =>
      have hnot : ¬ ((c0 :: rest).length < period) := Nat.not_lt.mpr hlen
      simp only [calculate_ema, if_neg hnot, spec_ema, spec_ema_mult,
        foldl_eq_spec_ema_go]

/-- C2 witness: the recurrence instance on closes 10, 11, 12 with
period 2, whose value is 104/9. -/
theorem C2_calculate_ema_recurrence_witness :
    calculate_ema [10, 11, 12] 2 = some (spec_ema [10, 11, 12] 2) ∧
      spec_ema [10, 11, 12] 2 = 104 / 9 :=
  ⟨C2_calculate_ema_recurrence [10, 11, 12] 2 (by simp) (by norm_num),
   by norm_num [spec_ema, spec_ema_go, spec_ema_mult]⟩

/-- C3 counterexample: a stored previous EMA9 equal to 0 satisfies the
claimed BULLISH condition (0 < 5 and 10 > 5) yet the code emits no
signal, because the Python truthiness guard treats the value 0.0 like a
missing value. -/
theorem C3_crossover_counterexample :
    detect_crossover (some 0) (some 5) 10 5 = none ∧
      ((0 : ℚ) < 5 ∧ (5 : ℚ) < 10) := by
  refine ⟨?_, by norm_num⟩
  simp [detect_crossover, truthyQ]

/-- C3 amended: when both previous EMA values are present and nonzero,
the signal is BULLISH iff prev9 < prev21 and ema9 > ema21, BEARISH iff
prev9 > prev21 and ema9 < ema21, and none otherwise; when either
previous value is missing (first tick) or equals zero, the signal is
none regardless of the current values. -/
theorem C3_crossover_detection (p9 p21 e9 e21 : ℚ)
    (hp9 : p9 ≠ 0) (hp21 : p21 ≠ 0) :
    (detect_crossover (some p9) (some p21) e9 e21 = some "BULLISH" ↔
        p9 < p21 ∧ e9 > e21) ∧
    (detect_crossover (some p9) (some p21) e9 e21 = some "BEARISH" ↔
        p21 < p9 ∧ e21 > e9) ∧
    detect_crossover none (some p21) e9 e21 = none ∧
    detect_crossover (some p9) none e9 e21 = none ∧
    detect_crossover none none e9 e21 = none ∧
    detect_crossover (some 0) (some p21) e9 e21 = none ∧
    detect_crossover (some p9) (some 0) e9 e21 = none := by
  unfold detect_crossover truthyQ
  simp only [if_neg hp9, if_neg hp21, if_pos rfl, Bool.and_true, Bool.true_and,
    Bool.and_false, Bool.false_and, if_true, if_false, Option.getD_some]
  refine ⟨?_, ?_, rfl, rfl, rfl, rfl, rfl⟩
  · constructor
    · intro h
      by_cases h1 : p9 < p21 ∧ e9 > e21
      · exact h1
      · rw [if_neg h1] at h
        by_cases h2 : p9 > p21 ∧ e9 < e21
        · rw [if_pos h2] at h
          exact absurd (Option.some.inj h) (by decide)
        · rw [if_neg h2] at h
          exact absurd h (by simp)
    · intro h
      rw [if_pos h]
  · constructor
    · intro h
      by_cases h1 : p9 < p21 ∧ e9 > e21
      · rw [if_pos h1] at h
        exact absurd (Option.some.inj h) (by decide)
      · rw [if_neg h1] at h
        by_cases h2 : p9 > p21 ∧ e9 < e21
        · exact ⟨h2.1, h2.2⟩
        · rw [if_neg h2] at h
          exact absurd h (by simp)
    · intro h
      have h1 : ¬ (p9 < p21 ∧ e9 > e21) := fun hc => absurd (lt_trans h.1 hc.1) (lt_irrefl p21)
      rw [if_neg h1, if_pos ⟨h.1, h.2⟩]

/-- C3 witness: the spec examples, previous (100, 105) with current
(106, 105) gives BULLISH, previous (105, 100) with current (99, 100)
gives BEARISH, and a first tick with no previous values gives none. -/
theorem C3_crossover_detection_witness :
    detect_crossover (some 100) (some 105) 106 105 = some "BULLISH" ∧
      detect_crossover (some 105) (some 100) 99 100 = some "BEARISH" ∧
      detect_crossover none none 106 105 = none :=
  ⟨((C3_crossover_detection 100 105 106 105 (by norm_num) (by norm_num)).1).mpr
      (by norm_num),
   ((C3_crossover_detection 105 100 99 100 (by norm_num) (by norm_num)).2.1).mpr
      (by norm_num),
   (C3_crossover_detection 1 1 106 105 one_ne_zero one_ne_zero).2.2.2.2.1⟩

theorem retry_go_calls_le {α : Type} (f : Nat → Except PyErr α) (n : Nat)
    (eb md : ℚ) :
    ∀ (r a : Nat) (d : ℚ) (s : List ℚ), (retry_go f n eb md r a d s).calls ≤ a + r + 1 := by
  intro r
  induction r with
  | zero =>
    intro a d s
    unfold retry_go
    cases f a with
    | ok v => simp
    | error e =>
      dsimp only
      split
      · simp
      · split <;> simp
  | succ r ih =>
    intro a d s
    unfold retry_go
    cases f a with
    | ok v => dsimp only; omega
    | error e =>
      dsimp only
      split
      · dsimp only; omega
      · calc (retry_go f n eb md r (a + 1) (d * eb) (s ++ [min d md])).calls
            ≤ (a + 1) + r + 1 := ih (a + 1) (d * eb) (s ++ [min d md])
          _ ≤ a + (r + 1) + 1 := by omega

/-- C5 counterexample: a call that keeps failing with a generic error is
attempted 4 times in total under the @retry_with_backoff(max_retries=3)
policy of the gateway, not at most 3, and it sleeps three times
(1s, 2s, 4s), not two. -/
theorem C5_retry_counterexample :
    (retry_with_backoff 3 1 2 60
        (fun _ => (.error ⟨"Exception", "", "connection reset"⟩ : Except PyErr ℚ))).calls = 4 ∧
    (retry_with_backoff 3 1 2 60
        (fun _ => (.error ⟨"Exception", "", "connection reset"⟩ : Except PyErr ℚ))).sleeps
      = [1, 2, 4] := by
  have h1 : min (1 : ℚ) 60 = 1 := by norm_num
  have h2 : min ((1 : ℚ) * 2) 60 = 2 := by norm_num
  have h3 : min ((1 : ℚ) * 2 * 2) 60 = 4 := by norm_num
  constructor <;>
    simp +decide [retry_with_backoff, retry_go, h1, h2, h3] <;> norm_num

/-- C5 amended: under the gateway retry policy with max_retries=3 a call
is attempted at most 4 times in total (one initial attempt plus three
retries), sleeping 1s, 2s then 4s between attempts (delays doubling,
capped at 60s); if a later attempt succeeds the underlying result is
returned; an error matching an authentication pattern is raised
immediately as AuthenticationError with zero further attempts and zero
sleeps; an error matching a rate-limit pattern that exhausts all
attempts is raised as RateLimitError. -/
theorem C5_retry_policy {α : Type} :
    (∀ f : Nat → Except PyErr α, (retry_with_backoff 3 1 2 60 f).calls ≤ 4) ∧
    (∀ (f : Nat → Except PyErr α) (e0 e1 : PyErr) (v : α),
        f 0 = .error e0 → f 1 = .error e1 → f 2 = .ok v →
        matchesAny (lowerStr (errStr e0)) authPatterns = false →
        matchesAny (lowerStr (errStr e1)) authPatterns = false →
        (retry_with_backoff 3 1 2 60 f).result = .ok v ∧
        (retry_with_backoff 3 1 2 60 f).sleeps = [1, 2] ∧
        (retry_with_backoff 3 1 2 60 f).calls = 3) ∧
    (∀ (f : Nat → Except PyErr α) (e : PyErr),
        f 0 = .error e →
        matchesAny (lowerStr (errStr e)) authPatterns = true →
        (retry_with_backoff 3 1 2 60 f).result =
          .error ⟨"AuthenticationError", "UNKNOWN", "Authentication failed: " ++ errStr e⟩ ∧
        (retry_with_backoff 3 1 2 60 f).calls = 1 ∧
        (retry_with_backoff 3 1 2 60 f).sleeps = []) ∧
    (∀ e : PyErr,
        matchesAny (lowerStr (errStr e)) authPatterns = false →
        matchesAny (lowerStr (errStr e)) rateLimitPatterns = true →
        (retry_with_backoff 3 1 2 60
            (fun _ => (.error e : Except PyErr α))).result =
          .error ⟨"RateLimitError", "UNKNOWN", "Rate limit exceeded after 3 retries"⟩ ∧
        (retry_with_backoff 3 1 2 60 (fun _ => (.error e : Except PyErr α))).calls = 4 ∧
        (retry_with_backoff 3 1 2 60 (fun _ => (.error e : Except PyErr α))).sleeps
          = [1, 2, 4]) := by
  have h1 : min (1 : ℚ) 60 = 1 := by norm_num
  have h2 : min ((1 : ℚ) * 2) 60 = 2 := by norm_num
  have h3 : min ((1 : ℚ) * 2 * 2) 60 = 4 := by norm_num
  have h4 : min ((2 : ℚ)) 60 = 2 := by norm_num
  have h5 : min ((2 : ℚ) * 2) 60 = 4 := by norm_num
  have h6 : min ((4 : ℚ)) 60 = 4 := by norm_num
  refine ⟨?_, ?_, ?_, ?_⟩
  · intro f
    have := retry_go_calls_le f 3 2 60 3 0 1 []
    simpa [retry_with_backoff] using this
  · intro f e0 e1 v hf0 hf1 hf2 ha0 ha1
    refine ⟨?_, ?_, ?_⟩ <;>
      simp [retry_with_backoff, retry_go, hf0, hf1, hf2, ha0, ha1,
        h1, h2, h3, h4, h5, h6] <;>
      norm_num
  · intro f e hf0 ha
    refine ⟨?_, ?_, ?_⟩ <;>
      simp [retry_with_backoff, retry_go, hf0, ha]
  · intro e ha hr
    refine ⟨?_, ?_, ?_⟩ <;>
      simp +decide [retry_with_backoff, retry_go, ha, hr,
        h1, h2, h3, h4, h5, h6] <;>
      norm_num

/-- C5 witness: the amended retry policy exercised on concrete calls: a
generic failure twice then success returns the success value with sleeps
1s and 2s; an unauthorized error on the first attempt becomes an
immediate AuthenticationError after exactly one call; a persistent 429
error exhausts 4 calls and becomes RateLimitError. -/
theorem C5_retry_policy_witness :
    (retry_with_backoff 3 1 2 60
        (fun n => if n < 2 then .error ⟨"Exception", "", "timeout"⟩ else (.ok (42 : ℚ)))).result
      = .ok 42 ∧
    (retry_with_backoff 3 1 2 60
        (fun n => if n < 2 then .error ⟨"Exception", "", "timeout"⟩ else (.ok (42 : ℚ)))).sleeps
      = [1, 2] ∧
    (retry_with_backoff 3 1 2 60
        (fun _ => (.error ⟨"Exception", "", "Unauthorized request"⟩ : Except PyErr ℚ))).result
      = .error ⟨"AuthenticationError", "UNKNOWN",
          "Authentication failed: Unauthorized request"⟩ ∧
    (retry_with_backoff 3 1 2 60
        (fun _ => (.error ⟨"Exception", "", "Unauthorized request"⟩ : Except PyErr ℚ))).calls
      = 1 ∧
    (retry_with_backoff 3 1 2 60
        (fun _ => (.error ⟨"Exception", "", "HTTP 429"⟩ : Except PyErr ℚ))).result
      = .error ⟨"RateLimitError", "UNKNOWN", "Rate limit exceeded after 3 retries"⟩ ∧
    (retry_with_backoff 3 1 2 60
        (fun _ => (.error ⟨"Exception", "", "HTTP 429"⟩ : Except PyErr ℚ))).calls = 4 := by
  have hgen := (C5_retry_policy (α := ℚ)).2.1
      (fun n => if n < 2 then .error ⟨"Exception", "", "timeout"⟩ else (.ok (42 : ℚ)))
      ⟨"Exception", "", "timeout"⟩ ⟨"Exception", "", "timeout"⟩ 42
      rfl rfl rfl (by decide) (by decide)
  have hauth := (C5_retry_policy (α := ℚ)).2.2.1
      (fun _ => (.error ⟨"Exception", "", "Unauthorized request"⟩ : Except PyErr ℚ))
      ⟨"Exception", "", "Unauthorized request"⟩ rfl (by decide)
  have hrate := (C5_retry_policy (α := ℚ)).2.2.2
      ⟨"Exception", "", "HTTP 429"⟩ (by decide) (by decide)
  exact ⟨hgen.1, hgen.2.1,
    by simpa [errStr] using hauth.1, hauth.2.1, hrate.1, hrate.2.1⟩

theorem find?_append_none {α : Type} (p : α → Bool) (l1 l2 : List α)
    (h : l1.find? p = none) : (l1 ++ l2).find? p = l2.find? p := by
  induction l1 with
  | nil => rfl
  | cons x xs ih =>
    rw [List.find?_cons] at h
    cases hx : p x with
    | true => rw [hx] at h; exact Option.noConfusion h
    | false =>
      rw [hx] at h
      rw [List.cons_append, List.find?_cons, hx]
      exact ih h

theorem create_order_fresh_price_error
    (db : FirebaseDB) (saveOk : Bool)
    (user_id exchange_name symbol side : String)
    (amount : ℚ) (leverage : ℤ) (is_futures : Bool)
    (tp sl : ℚ) (cid : String)
    (priceAdapter : String → Nat → Except PyErr ℚ)
    (adapterRes : Except PyErr AdapterOrderRes)
    (tid : String) (e : PyErr)
    (hp : (unified_get_current_price exchange_name symbol priceAdapter).result = .error e) :
    create_order_fresh db saveOk user_id exchange_name symbol side amount
        leverage is_futures tp sl cid priceAdapter adapterRes tid =
      ⟨.error e, db, (unified_get_current_price exchange_name symbol priceAdapter).calls, 0⟩ := by
  simp only [create_order_fresh]
  rw [hp]

theorem create_order_fresh_eval
    (db : FirebaseDB) (saveOk : Bool)
    (user_id exchange_name symbol side : String)
    (amount : ℚ) (leverage : ℤ) (is_futures : Bool)
    (tp sl : ℚ) (cid : String)
    (priceAdapter : String → Nat → Except PyErr ℚ)
    (adapterRes : Except PyErr AdapterOrderRes)
    (tid : String) (p : PriceRes) (ar : AdapterOrderRes)
    (hp : (unified_get_current_price exchange_name symbol priceAdapter).result = .ok p)
    (har : adapterRes = .ok ar)
    (hsup : supportedExchanges.contains exchange_name = true) :
    create_order_fresh db saveOk user_id exchange_name symbol side amount
        leverage is_futures tp sl cid priceAdapter adapterRes tid =
      ⟨.ok ⟨tid, ⟨cid, ar.orderId, exchange_name, symbol, upperStr side, amount, leverage,
          is_futures, p.price, compute_tp_price side p.price tp,
          compute_sl_price side p.price sl, tp, sl, ar.tp_order_id, ar.sl_order_id,
          "open"⟩, false⟩,
        (if db.initialized && saveOk then
            { db with trades := db.trades ++ [⟨user_id, tid,
              ⟨cid, ar.orderId, exchange_name, symbol, upperStr side, amount, leverage,
                is_futures, p.price, compute_tp_price side p.price tp,
                compute_sl_price side p.price sl, tp, sl, ar.tp_order_id, ar.sl_order_id,
                "open"⟩⟩] }
          else db),
        (unified_get_current_price exchange_name symbol priceAdapter).calls, 1⟩ := by
  subst har
  have hmem : exchange_name ∈ supportedExchanges := by simpa using hsup
  simp only [create_order_fresh]
  rw [hp]
  simp [hmem]

theorem create_order_fresh_ok_spec
    (db : FirebaseDB) (saveOk : Bool)
    (user_id exchange_name symbol side : String)
    (amount : ℚ) (leverage : ℤ) (is_futures : Bool)
    (tp sl : ℚ) (cid : String)
    (priceAdapter : String → Nat → Except PyErr ℚ)
    (adapterRes : Except PyErr AdapterOrderRes)
    (tid : String) (r : CreateOrderRes)
    (h : (create_order_fresh db saveOk user_id exchange_name symbol side amount
        leverage is_futures tp sl cid priceAdapter adapterRes tid).result = .ok r) :
    ∃ (p : PriceRes) (ar : AdapterOrderRes),
      (unified_get_current_price exchange_name symbol priceAdapter).result = .ok p ∧
      adapterRes = .ok ar ∧
      supportedExchanges.contains exchange_name = true ∧
      r = ⟨tid, ⟨cid, ar.orderId, exchange_name, symbol, upperStr side, amount, leverage,
        is_futures, p.price, compute_tp_price side p.price tp,
        compute_sl_price side p.price sl, tp, sl, ar.tp_order_id, ar.sl_order_id, "open"⟩,
        false⟩ ∧
      create_order_fresh db saveOk user_id exchange_name symbol side amount
          leverage is_futures tp sl cid priceAdapter adapterRes tid =
        ⟨.ok r,
          (if db.initialized && saveOk then
              { db with trades := db.trades ++ [⟨user_id, tid, r.data⟩] }
            else db),
          (unified_get_current_price exchange_name symbol priceAdapter).calls, 1⟩ := by
  cases hp : (unified_get_current_price exchange_name symbol priceAdapter).result with
  | error e =>
    rw [create_order_fresh_price_error db saveOk user_id exchange_name symbol side amount
      leverage is_futures tp sl cid priceAdapter adapterRes tid e hp] at h
    simp at h
  | ok p =>
    by_cases hsup : supportedExchanges.contains exchange_name = true
    · cases har : adapterRes with
      | error e =>
        have hx : create_order_fresh db saveOk user_id exchange_name symbol side amount
            leverage is_futures tp sl cid priceAdapter adapterRes tid =
            ⟨.error (if exchangeErrorClasses.contains e.className then e
                else mkExchangeError "ExchangeError" exchange_name
                  ("Failed to create order: " ++ errStr e)),
              db, (unified_get_current_price exchange_name symbol priceAdapter).calls,
              1⟩ := by
          have hmem : exchange_name ∈ supportedExchanges := by simpa using hsup
          simp only [create_order_fresh]
          rw [hp, har]
          simp [hmem]
        rw [hx] at h
        simp at h
      | ok ar =>
        have hkey := create_order_fresh_eval db saveOk user_id exchange_name symbol side
          amount leverage is_futures tp sl cid priceAdapter adapterRes tid p ar hp har hsup
        rw [hkey] at h
        have hr : r = ⟨tid, ⟨cid, ar.orderId, exchange_name, symbol, upperStr side,
            amount, leverage, is_futures, p.price, compute_tp_price side p.price tp,
            compute_sl_price side p.price sl, tp, sl, ar.tp_order_id, ar.sl_order_id,
            "open"⟩, false⟩ := (Except.ok.inj h).symm
        have hkey2 := create_order_fresh_eval db saveOk user_id exchange_name symbol side
          amount leverage is_futures tp sl cid priceAdapter (.ok ar) tid p ar hp rfl hsup
        refine ⟨p, ar, rfl, rfl, hsup, hr, ?_⟩
        rw [hkey2, hr]
    · have hx : create_order_fresh db saveOk user_id exchange_name symbol side amount
          leverage is_futures tp sl cid priceAdapter adapterRes tid =
          ⟨.error (mkExchangeError "ExchangeError" exchange_name
              ("Unsupported exchange: " ++ exchange_name)),
            db, (unified_get_current_price exchange_name symbol priceAdapter).calls,
            0⟩ := by
        have hmem : exchange_name ∉ supportedExchanges := by
          intro hm
          exact hsup (by simpa using hm)
        simp only [create_order_fresh]
        rw [hp]
        simp [hmem]
      rw [hx] at h
      simp at h

/-- C1: with persistence up and the first call having persisted the
trade, a second create_order call with the same client_order_id returns
the stored trade unchanged flagged idempotent=true, performs no gateway
price fetch and no venue order call, and at most one exchange order is
placed across the two calls. -/
theorem C1_create_order_idempotency
    (db : FirebaseDB)
    (user_id exchange symbol side : String)
    (amount : ℚ) (leverage : ℤ) (is_futures : Bool)
    (tp sl : ℚ) (cid : String)
    (priceAdapter priceAdapter2 : String → Nat → Except PyErr ℚ)
    (adapterRes adapterRes2 : Except PyErr AdapterOrderRes)
    (tid1 tid2 : String) (r1 : CreateOrderRes)
    (hinit : db.initialized = true)
    (hnone : db.trades.find? (fun st =>
        st.user_id == user_id && st.data.client_order_id == cid) = none)
    (h1 : (create_order db true true user_id exchange symbol side amount leverage
        is_futures tp sl cid priceAdapter adapterRes tid1).result = .ok r1) :
    (create_order
        (create_order db true true user_id exchange symbol side amount leverage
          is_futures tp sl cid priceAdapter adapterRes tid1).db
        true true user_id exchange symbol side amount leverage
        is_futures tp sl cid priceAdapter2 adapterRes2 tid2).result =
      .ok ⟨r1.trade_id, r1.data, true⟩ ∧
    (create_order
        (create_order db true true user_id exchange symbol side amount leverage
          is_futures tp sl cid priceAdapter adapterRes tid1).db
        true true user_id exchange symbol side amount leverage
        is_futures tp sl cid priceAdapter2 adapterRes2 tid2).price_fetch_calls = 0 ∧
    (create_order
        (create_order db true true user_id exchange symbol side amount leverage
          is_futures tp sl cid priceAdapter adapterRes tid1).db
        true true user_id exchange symbol side amount leverage
        is_futures tp sl cid priceAdapter2 adapterRes2 tid2).orders_placed = 0 ∧
    (create_order db true true user_id exchange symbol side amount leverage
        is_futures tp sl cid priceAdapter adapterRes tid1).orders_placed +
      (create_order
        (create_order db true true user_id exchange symbol side amount leverage
          is_futures tp sl cid priceAdapter adapterRes tid1).db
        true true user_id exchange symbol side amount leverage
        is_futures tp sl cid priceAdapter2 adapterRes2 tid2).orders_placed ≤ 1 := by
  have hlook : get_trade_by_client_order_id db true user_id cid = none := by
    unfold get_trade_by_client_order_id
    rw [hinit]
    simpa using hnone
  have h1' : (create_order_fresh db true user_id (lowerStr exchange) symbol side amount
      leverage is_futures tp sl cid priceAdapter adapterRes tid1).result = .ok r1 := by
    unfold create_order at h1
    rwa [hlook] at h1
  obtain ⟨p, ar, hp, har, hsup, hr1, hkey⟩ :=
    create_order_fresh_ok_spec db true user_id (lowerStr exchange) symbol side amount
      leverage is_futures tp sl cid priceAdapter adapterRes tid1 r1 h1'
  have hco : create_order db true true user_id exchange symbol side amount leverage
      is_futures tp sl cid priceAdapter adapterRes tid1 =
      create_order_fresh db true user_id (lowerStr exchange) symbol side amount
        leverage is_futures tp sl cid priceAdapter adapterRes tid1 := by
    unfold create_order
    rw [hlook]
  have hdb : (create_order_fresh db true user_id (lowerStr exchange) symbol side amount
      leverage is_futures tp sl cid priceAdapter adapterRes tid1).db =
      { db with trades := db.trades ++ [⟨user_id, tid1, r1.data⟩] } := by
    rw [hkey]
    simp [hinit]
  have hord : (create_order_fresh db true user_id (lowerStr exchange) symbol side amount
      leverage is_futures tp sl cid priceAdapter adapterRes tid1).orders_placed = 1 := by
    rw [hkey]
  have hcid : r1.data.client_order_id = cid := by rw [hr1]
  have hfound : get_trade_by_client_order_id
      { db with trades := db.trades ++ [⟨user_id, tid1, r1.data⟩] }
      true user_id cid = some ⟨user_id, tid1, r1.data⟩ := by
    unfold get_trade_by_client_order_id
    simp only [hinit, Bool.not_true, Bool.false_eq_true, if_false]
    rw [find?_append_none _ _ _ hnone]
    rw [List.find?_cons]
    have hpred : ((⟨user_id, tid1, r1.data⟩ : StoredTrade).user_id == user_id &&
        (⟨user_id, tid1, r1.data⟩ : StoredTrade).data.client_order_id == cid) = true := by
      simp [hcid]
    rw [hpred]
  have hsecond : create_order
      { db with trades := db.trades ++ [⟨user_id, tid1, r1.data⟩] }
      true true user_id exchange symbol side amount leverage
      is_futures tp sl cid priceAdapter2 adapterRes2 tid2 =
      ⟨.ok ⟨tid1, r1.data, true⟩,
        { db with trades := db.trades ++ [⟨user_id, tid1, r1.data⟩] }, 0, 0⟩ := by
    unfold create_order
    rw [hfound]
  have htid : r1.trade_id = tid1 := by rw [hr1]
  refine ⟨?_, ?_, ?_, ?_⟩
  · rw [hco, hdb, hsecond, htid]
  · rw [hco, hdb, hsecond]
  · rw [hco, hdb, hsecond]
  · rw [hco, hdb, hsecond, hkey]
    simp

/-- C1 witness: a concrete first call on Binance persists the trade;
the repeated call with the same client order id returns it idempotent,
with zero price fetches and zero order placements, even though its
price and order oracles would fail - they are never consulted. -/
theorem C1_create_order_idempotency_witness :
    (create_order
        (create_order ⟨true, []⟩ true true "u1" "Binance" "BTCUSDT" "buy" 10 10 true 5 2
          "c-1" (fun _ _ => .ok 100) (.ok ⟨"111", some "77", some "88"⟩) "t1").db
        true true "u1" "Binance" "BTCUSDT" "buy" 10 10 true 5 2 "c-1"
        (fun _ _ => .error ⟨"Exception", "", "network down"⟩)
        (.error ⟨"Exception", "", "network down"⟩) "t2").result =
      .ok ⟨"t1", ⟨"c-1", "111", "binance", "BTCUSDT", "BUY", 10, 10, true, 100,
        some 105, some 98, 5, 2, some "77", some "88", "open"⟩, true⟩ ∧
    (create_order
        (create_order ⟨true, []⟩ true true "u1" "Binance" "BTCUSDT" "buy" 10 10 true 5 2
          "c-1" (fun _ _ => .ok 100) (.ok ⟨"111", some "77", some "88"⟩) "t1").db
        true true "u1" "Binance" "BTCUSDT" "buy" 10 10 true 5 2 "c-1"
        (fun _ _ => .error ⟨"Exception", "", "network down"⟩)
        (.error ⟨"Exception", "", "network down"⟩) "t2").price_fetch_calls = 0 ∧
    (create_order
        (create_order ⟨true, []⟩ true true "u1" "Binance" "BTCUSDT" "buy" 10 10 true 5 2
          "c-1" (fun _ _ => .ok 100) (.ok ⟨"111", some "77", some "88"⟩) "t1").db
        true true "u1" "Binance" "BTCUSDT" "buy" 10 10 true 5 2 "c-1"
        (fun _ _ => .error ⟨"Exception", "", "network down"⟩)
        (.error ⟨"Exception", "", "network down"⟩) "t2").orders_placed = 0 ∧
    (create_order ⟨true, []⟩ true true "u1" "Binance" "BTCUSDT" "buy" 10 10 true 5 2
        "c-1" (fun _ _ => .ok 100) (.ok ⟨"111", some "77", some "88"⟩) "t1").orders_placed +
      (create_order
        (create_order ⟨true, []⟩ true true "u1" "Binance" "BTCUSDT" "buy" 10 10 true 5 2
          "c-1" (fun _ _ => .ok 100) (.ok ⟨"111", some "77", some "88"⟩) "t1").db
        true true "u1" "Binance" "BTCUSDT" "buy" 10 10 true 5 2 "c-1"
        (fun _ _ => .error ⟨"Exception", "", "network down"⟩)
        (.error ⟨"Exception", "", "network down"⟩) "t2").orders_placed ≤ 1 := by
  have hlook : get_trade_by_client_order_id ⟨true, []⟩ true "u1" "c-1" = none := rfl
  have hp : (unified_get_current_price (lowerStr "Binance") "BTCUSDT"
      (fun _ _ => .ok (100 : ℚ))).result = .ok ⟨"binance", "BTCUSDT", 100⟩ := rfl
  have hsup : supportedExchanges.contains (lowerStr "Binance") = true := by decide
  have hkey := create_order_fresh_eval ⟨true, []⟩ true "u1" (lowerStr "Binance") "BTCUSDT"
    "buy" 10 10 true 5 2 "c-1" (fun _ _ => .ok 100) (.ok ⟨"111", some "77", some "88"⟩)
    "t1" ⟨"binance", "BTCUSDT", 100⟩ ⟨"111", some "77", some "88"⟩ hp rfl hsup
  have hs : sideIsLong "buy" = true := by decide
  have htp : compute_tp_price "buy" (100 : ℚ) 5 = some 105 := by
    norm_num [compute_tp_price, hs]
  have hsl : compute_sl_price "buy" (100 : ℚ) 2 = some 98 := by
    norm_num [compute_sl_price, hs]
  have hlow : lowerStr "Binance" = "binance" := by decide
  have hup : upperStr "buy" = "BUY" := by decide
  have h1 : (create_order ⟨true, []⟩ true true "u1" "Binance" "BTCUSDT" "buy" 10 10 true
      5 2 "c-1" (fun _ _ => .ok 100) (.ok ⟨"111", some "77", some "88"⟩) "t1").result =
      .ok ⟨"t1", ⟨"c-1", "111", "binance", "BTCUSDT", "BUY", 10, 10, true, 100,
        some 105, some 98, 5, 2, some "77", some "88", "open"⟩, false⟩ := by
    unfold create_order
    rw [hlook]
    dsimp only
    rw [hkey]
    dsimp only
    rw [hlow, hup, htp, hsl]
  have main := C1_create_order_idempotency ⟨true, []⟩ "u1" "Binance" "BTCUSDT" "buy"
    10 10 true 5 2 "c-1" (fun _ _ => .ok 100)
    (fun _ _ => .error ⟨"Exception", "", "network down"⟩)
    (.ok ⟨"111", some "77", some "88"⟩) (.error ⟨"Exception", "", "network down"⟩)
    "t1" "t2"
    ⟨"t1", ⟨"c-1", "111", "binance", "BTCUSDT", "BUY", 10, 10, true, 100,
      some 105, some 98, 5, 2, some "77", some "88", "open"⟩, false⟩
    rfl rfl h1
  exact ⟨main.1, main.2.1, main.2.2.1, main.2.2.2⟩

/-- C4: with positive percentages, create_order prices the take profit
and stop loss from the fetched entry price: entry*(1+tp/100) and
entry*(1-sl/100) when side.upper() is BUY or LONG, mirrored otherwise
(in particular for SELL and SHORT); the returned trade carries exactly
these prices; at entry 100, tp 5 and sl 2 a BUY gets 105/98 and a SELL
gets 95/102. -/
theorem C4_tp_sl_pricing :
    (∀ (side : String) (e tp sl : ℚ), 0 < tp → 0 < sl →
      (sideIsLong side = true →
        compute_tp_price side e tp = some (e * (1 + tp / 100)) ∧
        compute_sl_price side e sl = some (e * (1 - sl / 100))) ∧
      (sideIsLong side = false →
        compute_tp_price side e tp = some (e * (1 - tp / 100)) ∧
        compute_sl_price side e sl = some (e * (1 + sl / 100)))) ∧
    (∀ (db : FirebaseDB) (saveOk : Bool) (user_id exchange_name symbol side : String)
        (amount : ℚ) (leverage : ℤ) (is_futures : Bool) (tp sl : ℚ) (cid : String)
        (priceAdapter : String → Nat → Except PyErr ℚ)
        (adapterRes : Except PyErr AdapterOrderRes) (tid : String) (r : CreateOrderRes),
        (create_order_fresh db saveOk user_id exchange_name symbol side amount leverage
          is_futures tp sl cid priceAdapter adapterRes tid).result = .ok r →
        r.data.tp_price = compute_tp_price side r.data.entry_price tp ∧
        r.data.sl_price = compute_sl_price side r.data.entry_price sl) ∧
    (sideIsLong "BUY" = true ∧ sideIsLong "LONG" = true ∧
      sideIsLong "SELL" = false ∧ sideIsLong "SHORT" = false) ∧
    (compute_tp_price "BUY" 100 5 = some 105 ∧ compute_sl_price "BUY" 100 2 = some 98 ∧
      compute_tp_price "SELL" 100 5 = some 95 ∧
      compute_sl_price "SELL" 100 2 = some 102) := by
  have hb : sideIsLong "BUY" = true := by decide
  have hse : sideIsLong "SELL" = false := by decide
  refine ⟨?_, ?_, ?_, ?_⟩
  · intro side e tp sl htp hsl
    constructor
    · intro hside
      constructor <;> simp [compute_tp_price, compute_sl_price, htp, hsl, hside]
    · intro hside
      constructor <;> simp [compute_tp_price, compute_sl_price, htp, hsl, hside]
  · intro db saveOk user_id exchange_name symbol side amount leverage is_futures tp sl
      cid priceAdapter adapterRes tid r h
    obtain ⟨p, ar, hp, har, hsup, hr, hkey⟩ :=
      create_order_fresh_ok_spec db saveOk user_id exchange_name symbol side amount
        leverage is_futures tp sl cid priceAdapter adapterRes tid r h
    rw [hr]
    exact ⟨rfl, rfl⟩
  · exact ⟨by decide, by decide, by decide, by decide⟩
  · refine ⟨?_, ?_, ?_, ?_⟩ <;> norm_num [compute_tp_price, compute_sl_price, hb, hse]

/-- C4 witness: the pricing rule applied at entry 100 with tp 5 and
sl 2, for BUY and for SELL. -/
theorem C4_tp_sl_pricing_witness :
    compute_tp_price "BUY" 100 5 = some (100 * (1 + 5 / 100)) ∧
    compute_sl_price "BUY" 100 2 = some (100 * (1 - 2 / 100)) ∧
    compute_tp_price "SELL" 100 5 = some (100 * (1 - 5 / 100)) ∧
    compute_sl_price "SELL" 100 2 = some (100 * (1 + 2 / 100)) := by
  have hbuy := (C4_tp_sl_pricing.1 "BUY" 100 5 2 (by norm_num) (by norm_num)).1 (by decide)
  have hsell := (C4_tp_sl_pricing.1 "SELL" 100 5 2 (by norm_num) (by norm_num)).2 (by decide)
  exact ⟨hbuy.1, hbuy.2, hsell.1, hsell.2⟩

theorem lowerChar_toNat_of_upper {c : Char} (h : 65 ≤ c.toNat ∧ c.toNat ≤ 90) :
    (Char.ofNat (c.toNat + 32)).toNat = c.toNat + 32 := by
  have hval : Nat.isValidChar (c.toNat + 32) := Or.inl (by omega)
  unfold Char.ofNat
  rw [dif_pos hval]
  rfl

theorem lowerChar_idem (c : Char) : lowerChar (lowerChar c) = lowerChar c := by
  unfold lowerChar
  by_cases h : 65 ≤ c.toNat ∧ c.toNat ≤ 90
  · rw [if_pos h]
    have ht := lowerChar_toNat_of_upper h
    rw [if_neg (by rw [ht]; omega)]
  · rw [if_neg h, if_neg h]

theorem lowerStr_idem (s : String) : lowerStr (lowerStr s) = lowerStr s := by
  unfold lowerStr
  apply congrArg
  rw [show (String.mk (List.map lowerChar s.data)).data = List.map lowerChar s.data
    from rfl]
  rw [List.map_map]
  exact List.map_congr_left (fun c _ => lowerChar_idem c)

theorem retry_go_const_error {α : Type} (f : Nat → Except PyErr α) (e : PyErr)
    (n : Nat) (eb md : ℚ)
    (hf : ∀ k, f k = .error e)
    (ha : matchesAny (lowerStr (errStr e)) authPatterns = false)
    (hr : matchesAny (lowerStr (errStr e)) rateLimitPatterns = false) :
    ∀ (r a : Nat) (d : ℚ) (s : List ℚ),
      (retry_go f n eb md r a d s).result =
        .error ⟨"ExchangeError", "UNKNOWN",
          "Operation failed after " ++ toString n ++ " retries: " ++ errStr e⟩ := by
  intro r
  induction r with
  | zero =>
    intro a d s
    simp [retry_go, hf a, ha, hr]
  | succ r ih =>
    intro a d s
    simp only [retry_go, hf a, ha, Bool.false_eq_true, if_false]
    exact ih (a + 1) (d * eb) (s ++ [min d md])

/-- C6 amended: for every venue name whose lowercasing is outside the
five supported exchanges (and does not itself contain a retry pattern),
the gateway operations get_balance, get_current_price and get_positions
raise the generic ExchangeError with message Unsupported exchange
without consulting any adapter - the codebase defines no
UnsupportedExchangeError class - and after the retry wrapper (which
retries this error like any generic one) the surfaced error is an
ExchangeError whose message records the exhausted retries;
TradeManager.create_order fails the same way from its price fetch and
places no order. -/
theorem C6_unsupported_exchange (exchange : String)
    (hex : supportedExchanges.contains (lowerStr exchange) = false)
    (hauth : matchesAny (lowerStr (errStr ⟨"ExchangeError", lowerStr exchange,
        "Unsupported exchange: " ++ lowerStr exchange⟩)) authPatterns = false)
    (hrate : matchesAny (lowerStr (errStr ⟨"ExchangeError", lowerStr exchange,
        "Unsupported exchange: " ++ lowerStr exchange⟩)) rateLimitPatterns = false) :
    (∀ (isFutures : Bool) (adapter : String → Nat → Except PyErr BalanceRes) (n : Nat),
        get_balance_attempt exchange isFutures adapter n =
          .error ⟨"ExchangeError", lowerStr exchange,
            "Unsupported exchange: " ++ lowerStr exchange⟩) ∧
    (∀ (symbol : String) (adapter : String → Nat → Except PyErr ℚ) (n : Nat),
        get_current_price_attempt exchange symbol adapter n =
          .error ⟨"ExchangeError", lowerStr exchange,
            "Unsupported exchange: " ++ lowerStr exchange⟩) ∧
    (∀ (adapter : String → Nat → Except PyErr (List PositionRes)) (n : Nat),
        get_positions_attempt exchange adapter n =
          .error ⟨"ExchangeError", lowerStr exchange,
            "Unsupported exchange: " ++ lowerStr exchange⟩) ∧
    (∀ (isFutures : Bool) (adapter : String → Nat → Except PyErr BalanceRes),
        (unified_get_balance exchange isFutures adapter).result =
          .error ⟨"ExchangeError", "UNKNOWN",
            "Operation failed after " ++ toString 3 ++ " retries: " ++
              errStr ⟨"ExchangeError", lowerStr exchange,
                "Unsupported exchange: " ++ lowerStr exchange⟩⟩) ∧
    (∀ (symbol : String) (adapter : String → Nat → Except PyErr ℚ),
        (unified_get_current_price exchange symbol adapter).result =
          .error ⟨"ExchangeError", "UNKNOWN",
            "Operation failed after " ++ toString 3 ++ " retries: " ++
              errStr ⟨"ExchangeError", lowerStr exchange,
                "Unsupported exchange: " ++ lowerStr exchange⟩⟩) ∧
    (∀ (adapter : String → Nat → Except PyErr (List PositionRes)),
        (unified_get_positions exchange adapter).result =
          .error ⟨"ExchangeError", "UNKNOWN",
            "Operation failed after " ++ toString 2 ++ " retries: " ++
              errStr ⟨"ExchangeError", lowerStr exchange,
                "Unsupported exchange: " ++ lowerStr exchange⟩⟩) ∧
    (∀ (db : FirebaseDB) (queryOk saveOk : Bool) (user_id symbol side : String)
        (amount : ℚ) (leverage : ℤ) (is_futures : Bool) (tp sl : ℚ) (cid : String)
        (priceAdapter : String → Nat → Except PyErr ℚ)
        (adapterRes : Except PyErr AdapterOrderRes) (tid : String),
        get_trade_by_client_order_id db queryOk user_id cid = none →
        (create_order db queryOk saveOk user_id exchange symbol side amount leverage
          is_futures tp sl cid priceAdapter adapterRes tid).orders_placed = 0 ∧
        (create_order db queryOk saveOk user_id exchange symbol side amount leverage
          is_futures tp sl cid priceAdapter adapterRes tid).result =
          .error ⟨"ExchangeError", "UNKNOWN",
            "Operation failed after " ++ toString 3 ++ " retries: " ++
              errStr ⟨"ExchangeError", lowerStr exchange,
                "Unsupported exchange: " ++ lowerStr exchange⟩⟩) := by
  have hmem : lowerStr exchange ∉ supportedExchanges := by simpa using hex
  have hbal : ∀ (isFutures : Bool) (adapter : String → Nat → Except PyErr BalanceRes)
      (n : Nat), get_balance_attempt exchange isFutures adapter n =
        .error ⟨"ExchangeError", lowerStr exchange,
          "Unsupported exchange: " ++ lowerStr exchange⟩ := by
    intro isFutures adapter n
    simp [get_balance_attempt, hmem, mkExchangeError, lowerStr_idem]
  have hpri : ∀ (symbol : String) (adapter : String → Nat → Except PyErr ℚ) (n : Nat),
      get_current_price_attempt exchange symbol adapter n =
        .error ⟨"ExchangeError", lowerStr exchange,
          "Unsupported exchange: " ++ lowerStr exchange⟩ := by
    intro symbol adapter n
    simp [get_current_price_attempt, hmem, mkExchangeError, lowerStr_idem]
  have hpos : ∀ (adapter : String → Nat → Except PyErr (List PositionRes)) (n : Nat),
      get_positions_attempt exchange adapter n =
        .error ⟨"ExchangeError", lowerStr exchange,
          "Unsupported exchange: " ++ lowerStr exchange⟩ := by
    intro adapter n
    simp [get_positions_attempt, hmem, mkExchangeError, lowerStr_idem]
  have hmem2 : lowerStr (lowerStr exchange) ∉ supportedExchanges := by
    rw [lowerStr_idem]; exact hmem
  have hpri2 : ∀ (symbol : String) (adapter : String → Nat → Except PyErr ℚ) (n : Nat),
      get_current_price_attempt (lowerStr exchange) symbol adapter n =
        .error ⟨"ExchangeError", lowerStr exchange,
          "Unsupported exchange: " ++ lowerStr exchange⟩ := by
    intro symbol adapter n
    simp [get_current_price_attempt, hmem2, mkExchangeError, lowerStr_idem]
    intro hm
    exact absurd hm hmem
  refine ⟨hbal, hpri, hpos, ?_, ?_, ?_, ?_⟩
  · intro isFutures adapter
    exact retry_go_const_error _ _ 3 2 60 (hbal isFutures adapter) hauth hrate 3 0 1 []
  · intro symbol adapter
    exact retry_go_const_error _ _ 3 2 60 (hpri symbol adapter) hauth hrate 3 0 1 []
  · intro adapter
    exact retry_go_const_error _ _ 2 2 60 (hpos adapter) hauth hrate 2 0 1 []
  · intro db queryOk saveOk user_id symbol side amount leverage is_futures tp sl cid
      priceAdapter adapterRes tid hlookup
    have hres : (unified_get_current_price (lowerStr exchange) symbol
        priceAdapter).result =
        .error ⟨"ExchangeError", "UNKNOWN",
          "Operation failed after " ++ toString 3 ++ " retries: " ++
            errStr ⟨"ExchangeError", lowerStr exchange,
              "Unsupported exchange: " ++ lowerStr exchange⟩⟩ :=
      retry_go_const_error _ _ 3 2 60 (hpri2 symbol priceAdapter) hauth hrate 3 0 1 []
    have hfr := create_order_fresh_price_error db saveOk user_id (lowerStr exchange)
      symbol side amount leverage is_futures tp sl cid priceAdapter adapterRes tid _ hres
    constructor
    · unfold create_order
      rw [hlookup]
      dsimp only
      rw [hfr]
    · unfold create_order
      rw [hlookup]
      dsimp only
      rw [hfr]

/-- C6 counterexample: no UnsupportedExchangeError class exists in the
codebase; an unknown venue such as gemini makes create_order (through
the gateway price fetch, after three futile retries of the unsupported
name) and get_balance surface a plain ExchangeError, whose class name
differs from the one the claim requires. -/
theorem C6_unsupported_counterexample :
    (create_order ⟨true, []⟩ true true "u1" "gemini" "BTCUSDT" "BUY" 10 10 true 5 2
        "c-9" (fun _ _ => .ok 100) (.ok ⟨"1", none, none⟩) "t").result =
      .error ⟨"ExchangeError", "UNKNOWN",
        "Operation failed after 3 retries: [GEMINI] Unsupported exchange: gemini"⟩ ∧
    (create_order ⟨true, []⟩ true true "u1" "gemini" "BTCUSDT" "BUY" 10 10 true 5 2
        "c-9" (fun _ _ => .ok 100) (.ok ⟨"1", none, none⟩) "t").orders_placed = 0 ∧
    (unified_get_balance "gemini" true (fun _ _ => .ok ⟨0, 0, "USDT"⟩)).result =
      .error ⟨"ExchangeError", "UNKNOWN",
        "Operation failed after 3 retries: [GEMINI] Unsupported exchange: gemini"⟩ ∧
    "ExchangeError" ≠ "UnsupportedExchangeError" :=
  ⟨rfl, rfl, rfl, by decide⟩

/-- C6 witness: the amended statement exercised at the concrete unknown
venue gemini, for one raw dispatch attempt and for the two retried
gateway operations. -/
theorem C6_unsupported_exchange_witness :
    get_balance_attempt "gemini" true (fun _ _ => .ok ⟨0, 0, "USDT"⟩) 0 =
      .error ⟨"ExchangeError", "gemini", "Unsupported exchange: gemini"⟩ ∧
    (unified_get_current_price "gemini" "BTCUSDT" (fun _ _ => .ok 100)).result =
      .error ⟨"ExchangeError", "UNKNOWN",
        "Operation failed after 3 retries: [GEMINI] Unsupported exchange: gemini"⟩ ∧
    (unified_get_positions "gemini" (fun _ _ => .ok [])).result =
      .error ⟨"ExchangeError", "UNKNOWN",
        "Operation failed after 2 retries: [GEMINI] Unsupported exchange: gemini"⟩ := by
  have h := C6_unsupported_exchange "gemini" (by decide) (by decide) (by decide)
  exact ⟨h.1 true _ 0, h.2.2.2.2.1 "BTCUSDT" _, h.2.2.2.2.2.1 _⟩

theorem ratFloor_eq_floor (q : ℚ) : ratFloor q = ⌊q⌋ := by
  rw [Rat.floor_def, ratFloor]
  exact Int.fdiv_eq_ediv _ (by positivity)

theorem step_precision_milli : step_precision 400 ((1 : ℚ)/1000) = 3 := by
  calc step_precision 400 ((1 : ℚ)/1000)
      = if ((1 : ℚ)/1000) < 1 then step_precision 399 ((1 : ℚ)/1000 * 10) + 1 else 0 :=
        rfl
    _ = step_precision 399 ((1 : ℚ)/1000 * 10) + 1 := if_pos (by norm_num)
    _ = step_precision 399 ((1 : ℚ)/100) + 1 := by norm_num
    _ = (if ((1 : ℚ)/100) < 1 then step_precision 398 ((1 : ℚ)/100 * 10) + 1 else 0) + 1 :=
        rfl
    _ = step_precision 398 ((1 : ℚ)/100 * 10) + 1 + 1 := by rw [if_pos (by norm_num)]
    _ = step_precision 398 ((1 : ℚ)/10) + 1 + 1 := by norm_num
    _ = (if ((1 : ℚ)/10) < 1 then step_precision 397 ((1 : ℚ)/10 * 10) + 1 else 0) + 1 + 1 :=
        rfl
    _ = step_precision 397 ((1 : ℚ)/10 * 10) + 1 + 1 + 1 := by rw [if_pos (by norm_num)]
    _ = step_precision 397 (1 : ℚ) + 1 + 1 + 1 := by norm_num
    _ = (if (1 : ℚ) < 1 then step_precision 396 ((1 : ℚ) * 10) + 1 else 0) + 1 + 1 + 1 :=
        rfl
    _ = 0 + 1 + 1 + 1 := by rw [if_neg (by norm_num)]
    _ = 3 := by norm_num

theorem round_quantity_small : round_quantity ((10 : ℚ)/50000) (1/1000) = 0 := by
  have hfl : ratFloor (((10 : ℚ)/50000) / (1/1000)) = 0 := by
    rw [ratFloor_eq_floor, show ((10 : ℚ)/50000) / (1/1000) = 1/5 by norm_num]
    norm_num
  have hmod : pythonMod ((10 : ℚ)/50000) (1/1000) = (10 : ℚ)/50000 := by
    unfold pythonMod
    rw [hfl]
    norm_num
  unfold round_quantity
  rw [if_neg (by norm_num : ¬((1 : ℚ)/1000 = 0))]
  rw [hmod, step_precision_milli]
  norm_num [pythonRound, roundHalfEven, ratFloor_eq_floor]

/-- C9 counterexample: 10 USDT at price 50000 with step size 0.001
rounds the raw quantity 0.0002 down to 0, which is below the 0.001
minimum, and BinanceService.create_order rejects the order with a plain
Exception - the codebase defines no OrderTooSmallError class. -/
theorem C9_order_too_small_counterexample :
    round_quantity ((10 : ℚ) / 50000) (1/1000) = 0 ∧
    binance_order_quantity 10 50000 ⟨1/1000, 1/1000⟩ =
      .error ⟨"Exception", "",
        "Order quantity is below minimum. Increase order amount"⟩ ∧
    "Exception" ≠ "OrderTooSmallError" := by
  have hlt : round_quantity ((10 : ℚ)/50000) (1/1000) < (1 : ℚ)/1000 := by
    rw [round_quantity_small]; norm_num
  refine ⟨round_quantity_small, ?_, by decide⟩
  unfold binance_order_quantity
  rw [if_pos hlt]

/-- C9 amended: whenever the quote amount converted at the current
price and rounded down to the step size falls below the venue minimum
quantity, BinanceService.create_order raises a plain Exception
reporting the minimum (TradeManager wraps it into ExchangeError) and
never submits the order; the error class OrderTooSmallError named by
the claim does not exist in the codebase. -/
theorem C9_order_below_minimum (amount current_price : ℚ) (info : SymbolInfo)
    (h : round_quantity (amount / current_price) info.stepSize < info.minQty) :
    binance_order_quantity amount current_price info =
      .error ⟨"Exception", "",
        "Order quantity is below minimum. Increase order amount"⟩ ∧
    ∀ q : ℚ, binance_order_quantity amount current_price info ≠ .ok q := by
  unfold binance_order_quantity
  rw [if_pos h]
  exact ⟨rfl, fun q => by simp⟩

/-- C9 witness: the below-minimum rejection at amount 10 USDT, price
50000, step size and minimum quantity 0.001. -/
theorem C9_order_below_minimum_witness :
    binance_order_quantity 10 50000 ⟨1/1000, 1/1000⟩ =
      .error ⟨"Exception", "",
        "Order quantity is below minimum. Increase order amount"⟩ ∧
    ∀ q : ℚ, binance_order_quantity 10 50000 ⟨1/1000, 1/1000⟩ ≠ .ok q :=
  C9_order_below_minimum 10 50000 ⟨1/1000, 1/1000⟩
    (by
      show round_quantity ((10 : ℚ)/50000) (1/1000) < (1 : ℚ)/1000
      rw [round_quantity_small]
      norm_num)

/-- C7 counterexample: a successful detector tick without a crossover
(here: first tick, no previous EMAs, direction null) appends nothing to
the ema_signals history - neither check_ema_signal nor the monitor loop
records a Signal when no auto-trade executes. -/
theorem C7_signal_history_counterexample :
    (check_ema_signal "BTCUSDT" "15m" "binance" (some 10) (some 11) none none
        (.ok ⟨"binance", "BTCUSDT", 10⟩)).signal_appends = [] ∧
    Option.map SignalData.signal
        (check_ema_signal "BTCUSDT" "15m" "binance" (some 10) (some 11) none none
          (.ok ⟨"binance", "BTCUSDT", 10⟩)).result = some none ∧
    monitor_tick_signal_appends
        (check_ema_signal "BTCUSDT" "15m" "binance" (some 10) (some 11) none none
          (.ok ⟨"binance", "BTCUSDT", 10⟩))
        true true true true true [] []
        (.error ⟨"Exception", "", "unused"⟩) (.error ⟨"Exception", "", "unused"⟩)
        true = [] :=
  ⟨rfl, rfl, rfl⟩

/-- C7 amended: check_ema_signal never appends to the ema_signals
history; a record is appended only by execute_auto_trade after a
successful order, flagged action_taken=true and carrying the trade id
(when Firebase is initialized); a tick whose signal dictionary carries
a null direction appends nothing. -/
theorem C7_signal_history_appends :
    (∀ (symbol interval exchange : String)
        (ema9 ema21 previous_ema9 previous_ema21 : Option ℚ)
        (price_result : Except PyErr PriceRes),
        (check_ema_signal symbol interval exchange ema9 ema21 previous_ema9
          previous_ema21 price_result).signal_appends = []) ∧
    (∀ (sig exchange symbol : String) (open_trades : List TradeData)
        (res : CreateOrderRes) (trade_type : String),
        has_open_trade open_trades exchange symbol (!(trade_type == "spot")) = false →
        execute_auto_trade (some sig) exchange symbol true open_trades (.ok res) true
            trade_type =
          ⟨true, 1, [⟨symbol, trade_type, true, some res.trade_id,
            if sig == "BULLISH" then "BUY" else "SELL"⟩]⟩) ∧
    (∀ (exchange symbol : String) (keys : Bool) (open_trades : List TradeData)
        (order_result : Except PyErr CreateOrderRes) (fb : Bool) (tt : String),
        execute_auto_trade none exchange symbol keys open_trades order_result fb tt =
          ⟨false, 0, []⟩) ∧
    (∀ (co : CheckSignalOut) (sd : SignalData) (b1 b2 b3 b4 b5 : Bool)
        (ot1 ot2 : List TradeData) (o1 o2 : Except PyErr CreateOrderRes) (fb : Bool),
        co.result = some sd → sd.signal = none →
        monitor_tick_signal_appends co b1 b2 b3 b4 b5 ot1 ot2 o1 o2 fb =
          co.signal_appends) := by
  refine ⟨?_, ?_, ?_, ?_⟩
  · intro s i e e9 e21 p9 p21 pr
    unfold check_ema_signal
    cases e9 <;> cases e21 <;> first | rfl | (cases pr <;> rfl)
  · intro sig exchange symbol ot res tt h
    simp [execute_auto_trade, h]
  · intro exchange symbol keys ot o fb tt
    rfl
  · intro co sd b1 b2 b3 b4 b5 ot1 ot2 o1 o2 fb hres hsig
    unfold monitor_tick_signal_appends
    rw [hres]
    dsimp only
    rw [hsig]
    simp

/-- C7 witness: a concrete executed auto-trade appends exactly one
history record flagged action_taken=true with the trade id, and a
concrete check_ema_signal call appends nothing. -/
theorem C7_signal_history_appends_witness :
    execute_auto_trade (some "BULLISH") "binance" "BTCUSDT" true []
        (.ok ⟨"t9", ⟨"c7", "1", "binance", "BTCUSDT", "BUY", 10, 10, true, 100, none,
          none, 0, 0, none, none, "open"⟩, false⟩) true "futures" =
      ⟨true, 1, [⟨"BTCUSDT", "futures", true, some "t9", "BUY"⟩]⟩ ∧
    (check_ema_signal "ETHUSDT" "15m" "bybit" (some 5) (some 6) (some 7) (some 8)
        (.ok ⟨"bybit", "ETHUSDT", 5⟩)).signal_appends = [] := by
  have h2 := C7_signal_history_appends.2.1 "BULLISH" "binance" "BTCUSDT" []
    ⟨"t9", ⟨"c7", "1", "binance", "BTCUSDT", "BUY", 10, 10, true, 100, none, none, 0, 0,
      none, none, "open"⟩, false⟩ "futures" rfl
  have h1 := C7_signal_history_appends.1 "ETHUSDT" "15m" "bybit" (some 5) (some 6)
    (some 7) (some 8) (.ok ⟨"bybit", "ETHUSDT", 5⟩)
  exact ⟨h2, h1⟩

/-- C8: when the user already holds an open trade for the same
(exchange, symbol, is_futures), execute_auto_trade returns without
calling create_order at all - no order is submitted and nothing is
appended to the signal history - preserving the at-most-one-open-trade
invariant under sequential invocation. -/
theorem C8_skip_when_open_trade (sig exchange symbol : String)
    (api_keys_present firebase_up : Bool) (open_trades : List TradeData)
    (order_result : Except PyErr CreateOrderRes) (trade_type : String)
    (h : has_open_trade open_trades exchange symbol (!(trade_type == "spot")) = true) :
    execute_auto_trade (some sig) exchange symbol api_keys_present open_trades
        order_result firebase_up trade_type = ⟨false, 0, []⟩ := by
  cases api_keys_present with
  | false => rfl
  | true => simp [execute_auto_trade, h]

/-- C8 witness: a BULLISH futures auto-trade for a symbol that already
has an open futures trade on the same exchange is skipped with zero
create_order calls. -/
theorem C8_skip_when_open_trade_witness :
    execute_auto_trade (some "BULLISH") "binance" "BTCUSDT" true
        [⟨"c8", "1", "binance", "BTCUSDT", "BUY", 10, 10, true, 100, none, none, 0, 0,
          none, none, "open"⟩]
        (.ok ⟨"t8", ⟨"c8", "1", "binance", "BTCUSDT", "BUY", 10, 10, true, 100, none,
          none, 0, 0, none, none, "open"⟩, false⟩) true "futures" =
      ⟨false, 0, []⟩ :=
  C8_skip_when_open_trade "BULLISH" "binance" "BTCUSDT" true true _ _ "futures"
    (by decide)

/-- C10: the idempotency lookup never propagates an error - it returns
None when Firebase is uninitialized and None when the query raises -
and create_order then takes the fresh path, placing a new exchange
order with idempotent=false even when a trade with the same
client_order_id is already stored. -/
theorem C10_idempotency_degrades_silently :
    (∀ (db : FirebaseDB) (queryOk : Bool) (user_id cid : String),
        db.initialized = false →
        get_trade_by_client_order_id db queryOk user_id cid = none) ∧
    (∀ (db : FirebaseDB) (user_id cid : String),
        get_trade_by_client_order_id db false user_id cid = none) ∧
    (∀ (db : FirebaseDB) (queryOk saveOk : Bool)
        (user_id exchange symbol side : String) (amount : ℚ) (leverage : ℤ)
        (is_futures : Bool) (tp sl : ℚ) (cid : String)
        (priceAdapter : String → Nat → Except PyErr ℚ)
        (adapterRes : Except PyErr AdapterOrderRes) (tid : String)
        (st : StoredTrade) (p : PriceRes) (ar : AdapterOrderRes),
        (db.initialized = false ∨ queryOk = false) →
        st ∈ db.trades → st.user_id = user_id → st.data.client_order_id = cid →
        (unified_get_current_price (lowerStr exchange) symbol priceAdapter).result =
          .ok p →
        adapterRes = .ok ar →
        supportedExchanges.contains (lowerStr exchange) = true →
        (create_order db queryOk saveOk user_id exchange symbol side amount leverage
          is_futures tp sl cid priceAdapter adapterRes tid).orders_placed = 1 ∧
        ∃ r : CreateOrderRes,
          (create_order db queryOk saveOk user_id exchange symbol side amount leverage
            is_futures tp sl cid priceAdapter adapterRes tid).result = .ok r ∧
          r.idempotent = false) := by
  have h1 : ∀ (db : FirebaseDB) (queryOk : Bool) (user_id cid : String),
      db.initialized = false →
      get_trade_by_client_order_id db queryOk user_id cid = none := by
    intro db q u c h
    unfold get_trade_by_client_order_id
    rw [h]
    rfl
  have h2 : ∀ (db : FirebaseDB) (user_id cid : String),
      get_trade_by_client_order_id db false user_id cid = none := by
    intro db u c
    unfold get_trade_by_client_order_id
    cases db.initialized <;> simp
  refine ⟨h1, h2, ?_⟩
  intro db queryOk saveOk user_id exchange symbol side amount leverage is_futures tp sl
    cid priceAdapter adapterRes tid st p ar hdis hmem hu hc hp har hsup
  have hlook : get_trade_by_client_order_id db queryOk user_id cid = none := by
    cases hdis with
    | inl h => exact h1 db queryOk user_id cid h
    | inr h => rw [h]; exact h2 db user_id cid
  have hkey := create_order_fresh_eval db saveOk user_id (lowerStr exchange) symbol side
    amount leverage is_futures tp sl cid priceAdapter adapterRes tid p ar hp har hsup
  constructor
  · unfold create_order
    rw [hlook]
    dsimp only
    rw [hkey]
  · refine ⟨⟨tid, ⟨cid, ar.orderId, lowerStr exchange, symbol, upperStr side, amount,
      leverage, is_futures, p.price, compute_tp_price side p.price tp,
      compute_sl_price side p.price sl, tp, sl, ar.tp_order_id, ar.sl_order_id,
      "open"⟩, false⟩, ?_, rfl⟩
    unfold create_order
    rw [hlook]
    dsimp only
    rw [hkey]

/-- C10 witness: with Firebase uninitialized and a trade with the same
client order id already stored, the lookup returns None and
create_order places a fresh exchange order. -/
theorem C10_idempotency_degrades_silently_witness :
    get_trade_by_client_order_id
      ⟨false, [⟨"u1", "t0", ⟨"c-1", "9", "binance", "BTCUSDT", "BUY", 10, 10, true, 100,
        none, none, 0, 0, none, none, "open"⟩⟩]⟩ true "u1" "c-1" = none ∧
    (create_order
        ⟨false, [⟨"u1", "t0", ⟨"c-1", "9", "binance", "BTCUSDT", "BUY", 10, 10, true,
          100, none, none, 0, 0, none, none, "open"⟩⟩]⟩
        true true "u1" "binance" "BTCUSDT" "BUY" 10 10 true 0 0 "c-1"
        (fun _ _ => .ok 100) (.ok ⟨"2", none, none⟩) "t1").orders_placed = 1 ∧
    ∃ r : CreateOrderRes,
      (create_order
          ⟨false, [⟨"u1", "t0", ⟨"c-1", "9", "binance", "BTCUSDT", "BUY", 10, 10, true,
            100, none, none, 0, 0, none, none, "open"⟩⟩]⟩
          true true "u1" "binance" "BTCUSDT" "BUY" 10 10 true 0 0 "c-1"
          (fun _ _ => .ok 100) (.ok ⟨"2", none, none⟩) "t1").result = .ok r ∧
        r.idempotent = false := by
  have hmain := C10_idempotency_degrades_silently
  have h3 := hmain.2.2
    ⟨false, [⟨"u1", "t0", ⟨"c-1", "9", "binance", "BTCUSDT", "BUY", 10, 10, true, 100,
      none, none, 0, 0, none, none, "open"⟩⟩]⟩
    true true "u1" "binance" "BTCUSDT" "BUY" 10 10 true 0 0 "c-1"
    (fun _ _ => .ok 100) (.ok ⟨"2", none, none⟩) "t1"
    ⟨"u1", "t0", ⟨"c-1", "9", "binance", "BTCUSDT", "BUY", 10, 10, true, 100,
      none, none, 0, 0, none, none, "open"⟩⟩
    ⟨"binance", "BTCUSDT", 100⟩ ⟨"2", none, none⟩
    (Or.inl rfl) (by simp) rfl rfl rfl rfl (by decide)
  exact ⟨hmain.1 _ true "u1" "c-1" rfl, h3.1, h3.2⟩
